import Mathlib

/-!
Shallow embedding of src/notional/free-collateral.js: a notification-plugin
adapter for the Notional V2 protocol.  The module exposes four lifecycle hooks
(onInit, onSubscribeForm, onBlocks, plus the message builder buildNotification)
and one query adapter (getFreeCollateral) that delegates to the external
Notional SDK.

Modelling choices, each recorded at the definition it concerns:
- JavaScript dynamic values that matter here (undefined versus a number) are
  the inductive JSVal; the JS loose comparison x < y with an undefined operand
  coerces undefined to NaN and is false (jsLt).
- Monetary amounts are exact rationals (the source converts SDK amounts with
  Number(x.toUSD().toExactString())).
- An async function body is embedded as an Except computation: each await on a
  fallible call is a match that propagates the error.  A promise that is NOT
  awaited is the Promise wrapper; reading a data property off a pending
  promise object yields undefined (Promise.getProp), exactly as in JS.
- The external SDK (Notional.load, getAccountFromGraph, TypedBigNumber.toUSD)
  is not part of this repository; it is modelled as an opaque environment
  SdkEnv whose toUSD conversion is an exact linear exchange rate.
- Intl.NumberFormat is a JS builtin, modelled after its documented en-locale
  compact short style (2000 renders as 2K, 1500 as 1.5K, 500 as 500).  The
  source binds amountFormatter to the result of calling Intl.NumberFormat
  without new, which is a NumberFormat instance object: invoking that object
  as a function throws a TypeError, while its format method formats.
-/

/-- A JavaScript value as far as this module observes one: either the
undefined value or a (finite) number, embedded as an exact rational. -/
inductive JSVal where
  | undefined : JSVal
  | num : ℚ → JSVal
deriving DecidableEq, Repr

/-- The JS relational comparison x < y restricted to the values above:
undefined is coerced to NaN by ToNumber, and every comparison with NaN is
false; two numbers compare numerically. -/
def jsLt : JSVal → JSVal → Bool
  | JSVal.num a, JSVal.num b => a < b
  | _, _ => false

/-- A JavaScript runtime error: a TypeError (calling a non-function) or an
error propagated from the external SDK (network, account resolution, ...). -/
inductive JsError where
  | typeError : String → JsError
  | sdkError : String → JsError
deriving DecidableEq, Repr

/-- The value the source binds at module level:
const amountFormatter = Intl.NumberFormat('en', with compact short style).
Called without new, Intl.NumberFormat returns a NumberFormat instance object
(not a function); we record its construction arguments. -/
structure NumberFormatInstance where
  locale : String
  style : String
deriving DecidableEq, Repr

def amountFormatter : NumberFormatInstance := { locale := "en", style := "compact" }

/-- Render the nonnegative fraction a / dS (a over a positive scaled
denominator dS) the way the en-locale compact style renders a scaled value:
below 10 keep one fractional digit rounded half-up (dropped when zero), from
10 on round half-up to an integer. -/
def compactDigits (a dS : Nat) : String :=
  if a < 10 * dS then
    let n := (20 * a + dS) / (2 * dS)
    if n % 10 == 0 then toString (n / 10)
    else toString (n / 10) ++ "." ++ toString (n % 10)
  else toString ((2 * a + dS) / (2 * dS))

/-- The en-locale compact short rendering of a number, as produced by the
Intl.NumberFormat builtin the source configures: thousands get a K suffix,
millions M, billions B, trillions T; 2000 renders as 2K, 1500 as 1.5K,
500 as 500, and a negative number gets a leading minus sign.  The magnitude
is handled through the numerator and denominator of the exact rational. -/
def formatCompact (q : ℚ) : String :=
  (if q.num < 0 then "-" else "") ++
  (let a := q.num.natAbs
   let d := q.den
   if a < 1000 * d then compactDigits a d
   else if a < 1000000 * d then compactDigits a (1000 * d) ++ "K"
   else if a < 1000000000 * d then compactDigits a (1000000 * d) ++ "M"
   else if a < 1000000000000 * d then compactDigits a (1000000000 * d) ++ "B"
   else compactDigits a (1000000000000 * d) ++ "T")

/-- The format method of the NumberFormat instance: ToNumber of undefined is
NaN, which Intl renders as the string NaN; a number is rendered compactly. -/
def NumberFormatInstance.format (_fmt : NumberFormatInstance) : JSVal → String
  | JSVal.undefined => "NaN"
  | JSVal.num q => formatCompact q

/-- Invoking the NumberFormat instance itself as a function, as the source
does in onSubscribeForm with amountFormatter(freeCollateral): a NumberFormat
instance is an ordinary object, not callable, so this throws a TypeError. -/
def NumberFormatInstance.callAsFunction (_fmt : NumberFormatInstance) (_v : JSVal) :
    Except JsError String :=
  Except.error (JsError.typeError "amountFormatter is not a function")

/-- The FreeCollateralParams record documented in the source and produced by
getFreeCollateral: debt, collateral and freeCollateral, each in USD. -/
structure FreeCollateralSnapshot where
  debt : ℚ
  collateral : ℚ
  freeCollateral : ℚ
deriving DecidableEq, Repr

/-- The same record seen as a JS object (each property a JSVal); this is the
shape buildNotification reads its three properties from. -/
structure JSSnapshot where
  debt : JSVal
  collateral : JSVal
  freeCollateral : JSVal
deriving DecidableEq, Repr

/-- View a snapshot with numeric fields as a JS object. -/
def FreeCollateralSnapshot.toJS (s : FreeCollateralSnapshot) : JSSnapshot :=
  { debt := JSVal.num s.debt
    collateral := JSVal.num s.collateral
    freeCollateral := JSVal.num s.freeCollateral }

/-- The account position returned by the external SDK call
getAccountFromGraph, reduced to what account.getFreeCollateral() yields:
the buffered debt and haircut collateral, as ETH-denominated amounts. -/
structure SdkAccount where
  netETHDebtWithBuffer : ℚ
  netETHCollateralWithHaircut : ℚ
deriving DecidableEq, Repr

/-- The loaded Notional SDK object: the account query (which may fail with an
SDK error) and the toUSD conversion, modelled as an exact linear exchange
rate applied to an ETH amount. -/
structure NotionalSdk where
  getAccountFromGraph : String → Except JsError SdkAccount
  ethToUSDRate : ℚ

/-- TypedBigNumber.toUSD().toExactString() read back with Number: an exact
linear conversion of an ETH amount at the SDK's exchange rate. -/
def NotionalSdk.toUSD (sdk : NotionalSdk) (ethAmount : ℚ) : ℚ :=
  ethAmount * sdk.ethToUSDRate

/-- The external world the adapter awaits on: Notional.load(1, null), which
resolves to the SDK or rejects with an SDK error. -/
structure SdkEnv where
  load : Except JsError NotionalSdk

/-- A JS promise that has not been awaited: it wraps the eventual outcome of
the underlying async computation. -/
structure Promise (α : Type) where
  result : Except JsError α

/-- Reading a named data property (freeCollateral, collateral, debt, ...) off
a promise OBJECT, as opposed to its resolved value: a pending promise has no
such own property, so the access yields undefined. -/
def Promise.getProp {α : Type} (_p : Promise α) (_propName : String) : JSVal :=
  JSVal.undefined

def FreeCollateral.displayName : String := "Free Collateral"

def FreeCollateral.description : String :=
  "Get notified when free collateral in your account goes under set threshold."

/-- async onInit(args) {} — the empty body resolves with undefined; the hook
receives only its argument (no SDK environment) and touches nothing. -/
def FreeCollateral.onInit (_args : JSVal) : Except JsError JSVal :=
  Except.ok JSVal.undefined

/-- async getFreeCollateral(accountId): await Notional.load, await
getAccountFromGraph(accountId), take the buffered debt and haircut collateral
from account.getFreeCollateral(), subtract in ETH, and convert all three to
USD.  Each await on a rejected promise propagates the error unmodified. -/
def FreeCollateral.getFreeCollateral (env : SdkEnv) (accountId : String) :
    Except JsError FreeCollateralSnapshot :=
  match env.load with
  | Except.error e => Except.error e
  | Except.ok notionalSdk =>
    match notionalSdk.getAccountFromGraph accountId with
    | Except.error e => Except.error e
    | Except.ok account =>
      let netETHDebtWithBuffer := account.netETHDebtWithBuffer
      let netETHCollateralWithHaircut := account.netETHCollateralWithHaircut
      let freeCollateralETH := netETHCollateralWithHaircut - netETHDebtWithBuffer
      Except.ok
        { debt := notionalSdk.toUSD netETHDebtWithBuffer
          collateral := notionalSdk.toUSD netETHCollateralWithHaircut
          freeCollateral := notionalSdk.toUSD freeCollateralETH }

/-- The argument record onSubscribeForm reads: args.address. -/
structure SubscribeFormArgs where
  address : String
deriving DecidableEq, Repr

/-- One entry of the array onSubscribeForm returns. -/
structure FieldDescriptor where
  type : String
  id : String
  label : String
  default : ℚ
  description : String
deriving DecidableEq, Repr

/-- async onSubscribeForm(args): await getFreeCollateral(args.address), then
build the single field descriptor whose description interpolates
amountFormatter(freeCollateral) — the call of the NumberFormat instance as a
function, which throws before the array can be returned. -/
def FreeCollateral.onSubscribeForm (env : SdkEnv) (args : SubscribeFormArgs) :
    Except JsError (List FieldDescriptor) :=
  match FreeCollateral.getFreeCollateral env args.address with
  | Except.error e => Except.error e
  | Except.ok snapshot =>
    let freeCollateral := snapshot.freeCollateral
    match amountFormatter.callAsFunction (JSVal.num freeCollateral) with
    | Except.error e => Except.error e
    | Except.ok currently =>
      Except.ok
        [{ type := "input-number"
           id := "free-collateral"
           label := "Free Collateral"
           default := 1000
           description :=
             "Notify me when account free collateral drops under X USD. (Currently: "
               ++ currently ++ " USD)" }]

/-- The record buildNotification returns. -/
structure NotificationRecord where
  notification : String
deriving DecidableEq, Repr

/-- buildNotification(freeCollateral): pure formatting of the three snapshot
properties with amountFormatter.format, each followed by USD. -/
def FreeCollateral.buildNotification (freeCollateral : JSSnapshot) : NotificationRecord :=
  { notification :=
      "Your account is low in free collateral and is at risk of getting liquidated. Free collateral: "
        ++ amountFormatter.format freeCollateral.freeCollateral
        ++ " USD | Collateral: "
        ++ amountFormatter.format freeCollateral.collateral
        ++ " USD | Debt: "
        ++ amountFormatter.format freeCollateral.debt
        ++ " USD" }

/-- The subscription record stored by the host platform; its key
free-collateral holds the numeric threshold in USD. -/
structure Subscription where
  freeCollateral : ℚ
deriving DecidableEq, Repr

/-- The argument record onBlocks reads: args.subscription (possibly absent)
and args.address. -/
structure BlocksArgs where
  subscription : Option Subscription
  address : String

/-- What onBlocks evaluates to: a bare return (the undefined value), a
notification record, or the empty array. -/
inductive OnBlocksResult where
  | undefinedResult : OnBlocksResult
  | notificationRecord : NotificationRecord → OnBlocksResult
  | emptyList : OnBlocksResult
deriving DecidableEq, Repr

/-- async onBlocks(args): bare return when args.subscription is missing;
otherwise read the free-collateral threshold, call getFreeCollateral WITHOUT
awaiting it (the source has no await here), compare the freeCollateral
property of the pending promise object against the threshold with the JS <
operator, and either build the notification from the promise object or
return the empty array.  Nothing in the body can throw: the unawaited
promise's rejection is never observed. -/
def FreeCollateral.onBlocks (env : SdkEnv) (args : BlocksArgs) : OnBlocksResult :=
  match args.subscription with
  | none => OnBlocksResult.undefinedResult
  | some subscription =>
    let freeCollateralThreshold := subscription.freeCollateral
    let accountFreeCollateral : Promise FreeCollateralSnapshot :=
      { result := FreeCollateral.getFreeCollateral env args.address }
    if jsLt (accountFreeCollateral.getProp "freeCollateral")
        (JSVal.num freeCollateralThreshold) then
      OnBlocksResult.notificationRecord
        (FreeCollateral.buildNotification
          { debt := accountFreeCollateral.getProp "debt"
            collateral := accountFreeCollateral.getProp "collateral"
            freeCollateral := accountFreeCollateral.getProp "freeCollateral" })
    else OnBlocksResult.emptyList

/-- Count the occurrences of a pattern at every position of a character
list. -/
def countOccsAux (pat : List Char) : List Char → Nat
  | [] => 0
  | c :: rest =>
    (if pat.isPrefixOf (c :: rest) then 1 else 0) + countOccsAux pat rest

/-- Number of occurrences of the pattern string inside s. -/
def countOccs (pat s : String) : Nat := countOccsAux pat.data s.data

/-- Whether pat occurs as a substring of s. -/
def containsSub (pat s : String) : Bool := decide (0 < countOccs pat s)

/-- A concrete SDK environment: the account resolves with zero buffered debt
and 400 of haircut collateral, at an exchange rate of 1, so the snapshot is
debt 0, collateral 400, freeCollateral 400. -/
def sdkEnv400 : SdkEnv :=
  { load := Except.ok
      { getAccountFromGraph := fun _ => Except.ok
          { netETHDebtWithBuffer := 0
            netETHCollateralWithHaircut := 400 }
        ethToUSDRate := 1 } }

/-- A concrete SDK environment whose load rejects with a network error. -/
def sdkEnvFail : SdkEnv :=
  { load := Except.error (JsError.sdkError "network unreachable") }

set_option maxRecDepth 8000

/-- C5: whenever getFreeCollateral succeeds, the freeCollateral field of the
returned snapshot equals its collateral field minus its debt field exactly,
including when that difference is negative; the ETH-level subtraction and the
exact linear USD conversion commute. -/
theorem getFreeCollateral_is_collateral_sub_debt (env : SdkEnv) (accountId : String)
    (snap : FreeCollateralSnapshot)
    (h : FreeCollateral.getFreeCollateral env accountId = Except.ok snap) :
    snap.freeCollateral = snap.collateral - snap.debt := by
  unfold FreeCollateral.getFreeCollateral at h
  split at h
  · simp at h
  · split at h
    · simp at h
    · injection h with h
      subst h
      simp only [NotionalSdk.toUSD]
      ring

/-- Witness for C5: the concrete environment sdkEnv400 produces the snapshot
with debt 0, collateral 400 and freeCollateral 400, and 400 = 400 - 0. -/
theorem getFreeCollateral_is_collateral_sub_debt_witness :
    FreeCollateral.getFreeCollateral sdkEnv400 "0xabc" =
      Except.ok { debt := 0, collateral := 400, freeCollateral := 400 } ∧
    ({ debt := 0, collateral := 400, freeCollateral := 400 } : FreeCollateralSnapshot).freeCollateral =
      ({ debt := 0, collateral := 400, freeCollateral := 400 } : FreeCollateralSnapshot).collateral -
        ({ debt := 0, collateral := 400, freeCollateral := 400 } : FreeCollateralSnapshot).debt := by
  constructor
  · simp [FreeCollateral.getFreeCollateral, sdkEnv400, NotionalSdk.toUSD]
  · exact getFreeCollateral_is_collateral_sub_debt sdkEnv400 "0xabc"
      { debt := 0, collateral := 400, freeCollateral := 400 }
      (by simp [FreeCollateral.getFreeCollateral, sdkEnv400, NotionalSdk.toUSD])

/-- C3: whenever args carries a subscription, onBlocks returns the empty list
and never a notification record: the snapshot fetch is not awaited, reading
freeCollateral off the pending promise object yields undefined, and the JS
comparison of undefined against any numeric threshold is false. -/
theorem onBlocks_subscription_present_always_empty (env : SdkEnv) (sub : Subscription)
    (address : String) :
    FreeCollateral.onBlocks env { subscription := some sub, address := address } =
      OnBlocksResult.emptyList ∧
    (∀ threshold : ℚ, jsLt JSVal.undefined (JSVal.num threshold) = false) :=
  ⟨rfl, fun _ => rfl⟩

/-- C1: the spec expects a notification when the fetched snapshot has
freeCollateral 400 and the subscribed threshold is 500; on the code, the very
environment whose snapshot is debt 0, collateral 400, freeCollateral 400
still makes onBlocks return the empty list, because the unawaited promise is
compared instead of the snapshot. -/
theorem onBlocks_below_threshold_still_empty :
    FreeCollateral.getFreeCollateral sdkEnv400 "0xabc" =
      Except.ok { debt := 0, collateral := 400, freeCollateral := 400 } ∧
    (400 : ℚ) < 500 ∧
    FreeCollateral.onBlocks sdkEnv400
      { subscription := some { freeCollateral := 500 }, address := "0xabc" } =
      OnBlocksResult.emptyList := by
  refine ⟨?_, by norm_num, rfl⟩
  simp [FreeCollateral.getFreeCollateral, sdkEnv400, NotionalSdk.toUSD]

/-- C6: when args has no subscription, onBlocks takes the bare return: the
result is the undefined value, not a notification and not an error (the hook
is total, so the missing key is absence, not failure). -/
theorem onBlocks_no_subscription_no_result (env : SdkEnv) (address : String) :
    FreeCollateral.onBlocks env { subscription := none, address := address } =
      OnBlocksResult.undefinedResult :=
  rfl

/-- C4: whenever getFreeCollateral resolves with a snapshot, onSubscribeForm
fails with the TypeError raised by invoking the NumberFormat instance as a
function in the description template. -/
theorem onSubscribeForm_typeError_of_fetch_success (env : SdkEnv)
    (args : SubscribeFormArgs) (snapshot : FreeCollateralSnapshot)
    (h : FreeCollateral.getFreeCollateral env args.address = Except.ok snapshot) :
    FreeCollateral.onSubscribeForm env args =
      Except.error (JsError.typeError "amountFormatter is not a function") := by
  unfold FreeCollateral.onSubscribeForm
  rw [h]
  rfl

/-- Witness for C4: under sdkEnv400 the fetch succeeds with the snapshot
debt 0, collateral 400, freeCollateral 400, and onSubscribeForm fails with
the TypeError. -/
theorem onSubscribeForm_typeError_of_fetch_success_witness :
    FreeCollateral.getFreeCollateral sdkEnv400 "0xabc" =
      Except.ok { debt := 0, collateral := 400, freeCollateral := 400 } ∧
    FreeCollateral.onSubscribeForm sdkEnv400 { address := "0xabc" } =
      Except.error (JsError.typeError "amountFormatter is not a function") := by
  constructor
  · simp [FreeCollateral.getFreeCollateral, sdkEnv400, NotionalSdk.toUSD]
  · exact onSubscribeForm_typeError_of_fetch_success sdkEnv400 { address := "0xabc" }
      { debt := 0, collateral := 400, freeCollateral := 400 }
      (by simp [FreeCollateral.getFreeCollateral, sdkEnv400, NotionalSdk.toUSD])

/-- C2: the spec expects one field descriptor with id free-collateral and
default 1000 whenever the fetch succeeds; on the code, the concrete
environment sdkEnv400 (successful fetch, numeric freeCollateral 400) makes
onSubscribeForm fail with a TypeError instead of returning any descriptor. -/
theorem onSubscribeForm_throws_despite_valid_snapshot :
    FreeCollateral.onSubscribeForm sdkEnv400 { address := "0xabc" } =
      Except.error (JsError.typeError "amountFormatter is not a function") :=
  rfl

/-- C9: whenever getFreeCollateral rejects, onSubscribeForm fails with that
very error: no field descriptor and no fallback value is produced. -/
theorem onSubscribeForm_propagates_fetch_error (env : SdkEnv)
    (args : SubscribeFormArgs) (e : JsError)
    (h : FreeCollateral.getFreeCollateral env args.address = Except.error e) :
    FreeCollateral.onSubscribeForm env args = Except.error e := by
  unfold FreeCollateral.onSubscribeForm
  rw [h]

/-- Witness for C9: under the failing environment the fetch rejects with a
network error and onSubscribeForm fails with exactly that error. -/
theorem onSubscribeForm_propagates_fetch_error_witness :
    FreeCollateral.getFreeCollateral sdkEnvFail "0xabc" =
      Except.error (JsError.sdkError "network unreachable") ∧
    FreeCollateral.onSubscribeForm sdkEnvFail { address := "0xabc" } =
      Except.error (JsError.sdkError "network unreachable") :=
  ⟨rfl, onSubscribeForm_propagates_fetch_error sdkEnvFail { address := "0xabc" }
    (JsError.sdkError "network unreachable") rfl⟩

/-- C7: on the snapshot with debt 2000, collateral 1500 and freeCollateral
-500, buildNotification produces exactly the message below; it contains the
compact renderings 2K, 1.5K and -500 of the three figures, the word USD
exactly three times, and states the negative free-collateral figure. -/
theorem buildNotification_concrete_message :
    (FreeCollateral.buildNotification
        { debt := JSVal.num 2000, collateral := JSVal.num 1500,
          freeCollateral := JSVal.num (-500) }).notification =
      "Your account is low in free collateral and is at risk of getting liquidated. Free collateral: -500 USD | Collateral: 1.5K USD | Debt: 2K USD" ∧
    countOccs "USD"
      (FreeCollateral.buildNotification
        { debt := JSVal.num 2000, collateral := JSVal.num 1500,
          freeCollateral := JSVal.num (-500) }).notification = 3 ∧
    containsSub "2K"
      (FreeCollateral.buildNotification
        { debt := JSVal.num 2000, collateral := JSVal.num 1500,
          freeCollateral := JSVal.num (-500) }).notification = true ∧
    containsSub "1.5K"
      (FreeCollateral.buildNotification
        { debt := JSVal.num 2000, collateral := JSVal.num 1500,
          freeCollateral := JSVal.num (-500) }).notification = true ∧
    containsSub "Free collateral: -500 USD"
      (FreeCollateral.buildNotification
        { debt := JSVal.num 2000, collateral := JSVal.num 1500,
          freeCollateral := JSVal.num (-500) }).notification = true := by
  refine ⟨rfl, ?_, ?_, ?_, ?_⟩ <;> decide

/-- C8: buildNotification is a pure function of its argument: two calls on
identical snapshots yield identical notification strings. -/
theorem buildNotification_deterministic (s1 s2 : JSSnapshot) (h : s1 = s2) :
    (FreeCollateral.buildNotification s1).notification =
      (FreeCollateral.buildNotification s2).notification := by
  rw [h]

/-- Witness for C8: the two calls on the concrete snapshot of the spec
example agree. -/
theorem buildNotification_deterministic_witness :
    ({ debt := JSVal.num 2000, collateral := JSVal.num 1500,
        freeCollateral := JSVal.num (-500) } : JSSnapshot) =
      { debt := JSVal.num 2000, collateral := JSVal.num 1500,
        freeCollateral := JSVal.num (-500) } ∧
    (FreeCollateral.buildNotification
        { debt := JSVal.num 2000, collateral := JSVal.num 1500,
          freeCollateral := JSVal.num (-500) }).notification =
      (FreeCollateral.buildNotification
        { debt := JSVal.num 2000, collateral := JSVal.num 1500,
          freeCollateral := JSVal.num (-500) }).notification :=
  ⟨rfl, buildNotification_deterministic
    { debt := JSVal.num 2000, collateral := JSVal.num 1500,
      freeCollateral := JSVal.num (-500) }
    { debt := JSVal.num 2000, collateral := JSVal.num 1500,
      freeCollateral := JSVal.num (-500) } rfl⟩

/-- C10: onInit resolves with the undefined value for every argument: the
hook receives no environment, performs no SDK call, touches no state, and
returns no value. -/
theorem onInit_no_observable_effect (args : JSVal) :
    FreeCollateral.onInit args = Except.ok JSVal.undefined :=
  rfl
